import Mathlib

/-!
Shallow embedding of the pipeline-orchestration core of
`fastapi_server/core/workflow/state.py`: the `AgentStateDict` state record,
the `StateManager` operations, the `WorkflowRouter` decision functions and
the `StateTransitionRules` table, together with theorems settling the
frozen claims about them.

Conventions of the embedding:
* Python `str` is Lean `String` (a list of unicode code points; `len` is
  `String.length`).
* Python `float` quality scores are modelled as `ℚ`; the thresholds
  (0.3, 0.5, 0.6, 0.9, 1.0) are exact rationals.
* `NotRequired` / absent dictionary keys are modelled as `Option` fields
  with `none` for "key absent" (a key stored with value `None` behaves
  identically to an absent key in every reader of the state, via
  `dict.get` defaulting and truthiness, and is collapsed onto `none`).
* The impure clock `datetime.utcnow().isoformat()` becomes an explicit
  `now : String` argument.
* `json.dumps` / `json.loads` are modelled at the JSON-document level: a
  `Json` value stands for the serialized text, whose printing and parsing
  is the standard lossless JSON surface syntax.
-/

/-- A JSON document, the target of `json.dumps(state, ensure_ascii=False)`.
Integer and non-integer Python numbers are kept apart, as `json` keeps
`int` and `float` apart on a round trip. -/
inductive Json where
  | null : Json
  | bool (b : Bool) : Json
  | int (n : Int) : Json
  | num (q : ℚ) : Json
  | str (s : String) : Json
  | arr (elems : List Json) : Json
  | obj (fields : List (String × Json)) : Json

/-- Association-list lookup: Python `dict[key]` / `dict.get(key)` for the
dictionaries we model as `List (String × α)` in insertion order. -/
def lookup {α : Type} : List (String × α) → String → Option α
  | [], _ => none
  | (k, v) :: rest, key => if k = key then some v else lookup rest key

/-- The characters Python `str.strip()` removes (CPython's unicode
whitespace): the ASCII controls 09-0D, the file/group/record/unit
separators 1C-1F, the space 20, next-line 85, no-break space A0, and the
Unicode space separators 1680, 2000-200A, 2028, 2029, 202F, 205F and
3000. -/
def pyIsSpace (c : Char) : Bool :=
  (0x09 ≤ c.toNat && c.toNat ≤ 0x0d) ||
  (0x1c ≤ c.toNat && c.toNat ≤ 0x1f) ||
  c.toNat == 0x20 || c.toNat == 0x85 || c.toNat == 0xa0 ||
  c.toNat == 0x1680 ||
  (0x2000 ≤ c.toNat && c.toNat ≤ 0x200a) ||
  c.toNat == 0x2028 || c.toNat == 0x2029 ||
  c.toNat == 0x202f || c.toNat == 0x205f || c.toNat == 0x3000

/-- Python `str.strip()`: remove leading and trailing whitespace (in
Python's `pyIsSpace` sense) from the code-point list of the string. -/
def pyStrip (s : String) : String :=
  ⟨((s.data.dropWhile pyIsSpace).reverse.dropWhile pyIsSpace).reverse⟩

/-- Python `str.lower()` (the substrings matched against are ASCII). -/
def pyLower (s : String) : String := ⟨s.data.map Char.toLower⟩

/-- Scanner deciding `needle.data` occurs contiguously in a list. -/
def listHasInfix (needle : List Char) : List Char → Bool
  | [] => List.isPrefixOf needle []
  | c :: rest => List.isPrefixOf needle (c :: rest) || listHasInfix needle rest

/-- Python `needle in hay` on strings: contiguous-substring containment. -/
def pyContains (needle hay : String) : Bool := listHasInfix needle.data hay.data

/-- Python truthiness test `not x` for an `Optional[str]` slot: true for an
absent key, a stored `None`, and the empty string. -/
def pyStrIsFalsy : Option String → Bool
  | none => true
  | some s => s.length == 0

/-- The `AgentStateDict` TypedDict: required `session_id`, `user_query`,
`current_step`, and `NotRequired` payload fields as `Option`s defaulting
to `none` (absent key). `Dict[...]` fields are association lists,
`Any` values are `Json`. -/
structure AgentStateDict where
  session_id : String
  user_query : String
  current_step : String
  processed_query : Option String := none
  query_intent : Option String := none
  query_category : Option String := none
  query_keywords : Option (List String) := none
  query_entities : Option (List (String × List String)) := none
  query_confidence : Option ℚ := none
  search_results : Option (List (List (String × Json))) := none
  total_results_count : Option Int := none
  search_strategy : Option String := none
  simplified_content : Option String := none
  key_points : Option (List String) := none
  step_by_step_guide : Option (List String) := none
  terminology_explanations : Option (List (String × String)) := none
  target_difficulty : Option String := none
  readability_score : Option ℚ := none
  final_response : Option String := none
  follow_up_questions : Option (List String) := none
  related_links : Option (List (List (String × String))) := none
  confidence_score : Option ℚ := none
  chat_history : Option (List (List (String × Json))) := none
  context : Option (List (String × Json)) := none
  metadata : Option (List (String × Json)) := none
  error_message : Option String := none
  processing_times : Option (List (String × ℚ)) := none
  created_at : Option String := none
  updated_at : Option String := none
  retry_count : Option Int := none

/-- `WorkflowDecision` TypedDict: routing decision with `NotRequired`
metadata. -/
structure WorkflowDecision where
  next_step : String
  reason : String
  confidence : ℚ
  metadata : Option (List (String × Json)) := none

/-- Node-name constants of `WorkflowNodes`. -/
def WorkflowNodes.QUERY_ANALYSIS : String := "query_analysis"

def WorkflowNodes.DOCUMENT_RETRIEVAL : String := "document_retrieval"

def WorkflowNodes.CONTENT_PROCESSING : String := "content_processing"

def WorkflowNodes.RESPONSE_GENERATION : String := "response_generation"

def WorkflowNodes.COMPLETED : String := "completed"

def WorkflowNodes.ERROR : String := "error"

/-- `StateManager.create_initial_state(session_id, user_query)`; the call
`datetime.utcnow().isoformat()` is the explicit argument `now`. Every
field the constructor lists is set; the remaining optional fields stay
absent. -/
def create_initial_state (session_id user_query : String) (now : String) :
    AgentStateDict :=
  { session_id := session_id
    user_query := user_query
    current_step := "query_analysis"
    query_keywords := some []
    query_entities := some []
    query_confidence := some 0
    search_results := some []
    total_results_count := some 0
    key_points := some []
    step_by_step_guide := some []
    terminology_explanations := some []
    readability_score := some 0
    follow_up_questions := some []
    related_links := some []
    confidence_score := some 0
    chat_history := some []
    context := some []
    metadata := some []
    processing_times := some []
    created_at := some now
    updated_at := some now
    retry_count := some 0 }

/-- `StateManager.set_error(state, error_message)`: the `update_state`
call overlays `current_step = "error"`, `error_message`, and
`retry_count = state.get("retry_count", 0) + 1`, and `update_state`
refreshes `updated_at` to the current time (`now`). -/
def set_error (state : AgentStateDict) (error_message : String)
    (now : String) : AgentStateDict :=
  { state with
    current_step := "error"
    error_message := some error_message
    retry_count := some (state.retry_count.getD 0 + 1)
    updated_at := some now }

/-- `StateManager.can_retry(state, max_retries=3)`. -/
def can_retry (state : AgentStateDict) (max_retries : Int := 3) : Bool :=
  state.retry_count.getD 0 < max_retries

/-- `StateManager.is_completed(state)`. -/
def is_completed (state : AgentStateDict) : Bool :=
  state.current_step == "completed"

/-- `StateManager.is_error(state)`. -/
def is_error (state : AgentStateDict) : Bool :=
  state.current_step == "error"

/-- `WorkflowRouter.route_after_analysis(state)`. -/
def route_after_analysis (state : AgentStateDict) : WorkflowDecision :=
  if state.current_step = "error" then
    { next_step := WorkflowNodes.ERROR
      reason := "Analysis failed"
      confidence := 1 }
  else
    let confidence := state.query_confidence.getD 0
    if confidence < 3/10 then
      { next_step := WorkflowNodes.ERROR
        reason := "Query confidence too low"
        confidence := 1
        metadata := some [("min_confidence", Json.num (3/10)),
                          ("actual_confidence", Json.num confidence)] }
    else
      { next_step := WorkflowNodes.DOCUMENT_RETRIEVAL
        reason := "Analysis successful, proceeding to document retrieval"
        confidence := confidence }

/-- `WorkflowRouter.route_after_retrieval(state)`. -/
def route_after_retrieval (state : AgentStateDict) : WorkflowDecision :=
  if state.current_step = "error" then
    { next_step := WorkflowNodes.ERROR
      reason := "Document retrieval failed"
      confidence := 1 }
  else
    let results_count := state.total_results_count.getD 0
    if results_count = 0 then
      { next_step := WorkflowNodes.ERROR
        reason := "No documents found"
        confidence := 1
        metadata := some [("results_count", Json.int results_count)] }
    else if results_count < 2 then
      { next_step := WorkflowNodes.CONTENT_PROCESSING
        reason := "Limited results found, proceeding with caution"
        confidence := 6/10
        metadata := some [("results_count", Json.int results_count),
                          ("warning", Json.str "limited_results")] }
    else
      { next_step := WorkflowNodes.CONTENT_PROCESSING
        reason := "Sufficient documents found"
        confidence := 9/10
        metadata := some [("results_count", Json.int results_count)] }

/-- `WorkflowRouter.route_after_processing(state)`; the guard
`not simplified_content or len(simplified_content.strip()) < 10` and the
metadata expression `len(simplified_content) if simplified_content else 0`
are modelled with `pyStrIsFalsy` / `pyStrip` (`("".strip()).length = 0`,
so the short-circuit on a falsy value agrees). -/
def route_after_processing (state : AgentStateDict) : WorkflowDecision :=
  if state.current_step = "error" then
    { next_step := WorkflowNodes.ERROR
      reason := "Content processing failed"
      confidence := 1 }
  else
    let simplified_content := state.simplified_content
    if pyStrIsFalsy simplified_content ∨
        (pyStrip (simplified_content.getD "")).length < 10 then
      { next_step := WorkflowNodes.ERROR
        reason := "Processed content is insufficient"
        confidence := 1
        metadata := some
          [("content_length", Json.int ((simplified_content.getD "").length : Int))] }
    else
      let readability := state.readability_score.getD 0
      if readability < 3/10 then
        { next_step := WorkflowNodes.RESPONSE_GENERATION
          reason := "Low readability but proceeding"
          confidence := 6/10
          metadata := some [("readability_score", Json.num readability),
                            ("warning", Json.str "low_readability")] }
      else
        { next_step := WorkflowNodes.RESPONSE_GENERATION
          reason := "Content processing successful"
          confidence := 9/10
          metadata := some [("readability_score", Json.num readability)] }

/-- `WorkflowRouter.route_after_response(state)`. -/
def route_after_response (state : AgentStateDict) : WorkflowDecision :=
  if state.current_step = "error" then
    { next_step := WorkflowNodes.ERROR
      reason := "Response generation failed"
      confidence := 1 }
  else
    let final_response := state.final_response
    if pyStrIsFalsy final_response ∨
        (pyStrip (final_response.getD "")).length < 10 then
      { next_step := WorkflowNodes.ERROR
        reason := "Generated response is insufficient"
        confidence := 1
        metadata := some
          [("response_length", Json.int ((final_response.getD "").length : Int))] }
    else
      let confidence_score := state.confidence_score.getD 0
      if confidence_score < 1/2 then
        { next_step := WorkflowNodes.COMPLETED
          reason := "Response generated with low confidence"
          confidence := confidence_score
          metadata := some [("confidence_score", Json.num confidence_score),
                            ("warning", Json.str "low_confidence")] }
      else
        { next_step := WorkflowNodes.COMPLETED
          reason := "Workflow completed successfully"
          confidence := confidence_score
          metadata := some [("confidence_score", Json.num confidence_score)] }

/-- `WorkflowRouter.route_from_error(state)`: retry routing, using
`can_retry` with its default `max_retries = 3` and case-insensitive
substring matching on `error_message` (absent key defaults to `""`). -/
def route_from_error (state : AgentStateDict) : WorkflowDecision :=
  if ¬ (can_retry state = true) then
    { next_step := WorkflowNodes.ERROR
      reason := "Maximum retries exceeded"
      confidence := 1
      metadata := some [("retry_count", Json.int (state.retry_count.getD 0))] }
  else
    let error_message := state.error_message.getD ""
    if pyContains "analysis" (pyLower error_message) then
      { next_step := WorkflowNodes.QUERY_ANALYSIS
        reason := "Retrying from query analysis"
        confidence := 1/2
        metadata := some [("retry_from", Json.str "analysis")] }
    else if pyContains "retrieval" (pyLower error_message) then
      { next_step := WorkflowNodes.DOCUMENT_RETRIEVAL
        reason := "Retrying from document retrieval"
        confidence := 1/2
        metadata := some [("retry_from", Json.str "retrieval")] }
    else if pyContains "processing" (pyLower error_message) then
      { next_step := WorkflowNodes.CONTENT_PROCESSING
        reason := "Retrying from content processing"
        confidence := 1/2
        metadata := some [("retry_from", Json.str "processing")] }
    else
      { next_step := WorkflowNodes.QUERY_ANALYSIS
        reason := "Retrying from the beginning"
        confidence := 3/10
        metadata := some [("retry_from", Json.str "beginning")] }

/-- `StateTransitionRules.VALID_TRANSITIONS`. -/
def VALID_TRANSITIONS : List (String × List String) :=
  [("query_analysis", ["document_retrieval", "error"]),
   ("document_retrieval", ["content_processing", "error"]),
   ("content_processing", ["response_generation", "error"]),
   ("response_generation", ["completed", "error"]),
   ("error", ["query_analysis", "document_retrieval", "content_processing",
              "response_generation"]),
   ("completed", ["query_analysis"])]

/-- `StateTransitionRules.is_valid_transition(from_step, to_step)`:
`to_step in VALID_TRANSITIONS.get(from_step, [])`. -/
def is_valid_transition (from_step to_step : String) : Bool :=
  (lookup VALID_TRANSITIONS from_step).getD [] |>.contains to_step

/-- `StateTransitionRules.validate_state_transition(state, new_step)`;
the guard `if not current_step` is truthy-false exactly for an empty
`current_step` (the field is required by the TypedDict). -/
def validate_state_transition (state : AgentStateDict) (new_step : String) :
    Bool × String :=
  if state.current_step = "" then
    (false, "Current step is not defined")
  else if ¬ (is_valid_transition state.current_step new_step = true) then
    (false, "Invalid transition from " ++ state.current_step ++ " to " ++ new_step)
  else if new_step = "completed" ∧ pyStrIsFalsy state.final_response = true then
    (false, "Cannot complete without final response")
  else if new_step = "error" ∧ 3 ≤ state.retry_count.getD 0 then
    (false, "Maximum retry limit reached")
  else
    (true, "Valid transition")

/-- Encode a Python list by encoding the elements. -/
def encListOf {α : Type} (e : α → Json) (xs : List α) : Json :=
  Json.arr (xs.map e)

/-- Encode a Python dict by encoding the values. -/
def encObjOf {α : Type} (e : α → Json) (ps : List (String × α)) : Json :=
  Json.obj (ps.map fun p => (p.1, e p.2))

/-- Decode a JSON string. -/
def decStr : Json → Option String
  | Json.str s => some s
  | _ => none

/-- Decode a JSON integer. -/
def decInt : Json → Option Int
  | Json.int n => some n
  | _ => none

/-- Decode a JSON (floating) number. -/
def decNum : Json → Option ℚ
  | Json.num q => some q
  | _ => none

/-- Decode every element of a list, failing if any element fails. -/
def mapMO {α β : Type} (f : α → Option β) : List α → Option (List β)
  | [] => some []
  | a :: as =>
    match f a, mapMO f as with
    | some b, some bs => some (b :: bs)
    | _, _ => none

/-- Decode every value of an object's field list. -/
def mapPairsO {α : Type} (f : Json → Option α) :
    List (String × Json) → Option (List (String × α))
  | [] => some []
  | (k, v) :: rest =>
    match f v, mapPairsO f rest with
    | some b, some bs => some ((k, b) :: bs)
    | _, _ => none

/-- Decode a JSON array elementwise. -/
def decListOf {α : Type} (d : Json → Option α) : Json → Option (List α)
  | Json.arr xs => mapMO d xs
  | _ => none

/-- Decode a JSON object valuewise. -/
def decObjOf {α : Type} (d : Json → Option α) : Json → Option (List (String × α))
  | Json.obj fs => mapPairsO d fs
  | _ => none

/-- The key/value pair a `NotRequired` field contributes to the serialized
object: nothing when the key is absent. -/
def optField {α : Type} (key : String) (enc : α → Json) :
    Option α → List (String × Json)
  | none => []
  | some v => [(key, enc v)]

/-- Decode the value found (or not) for a `NotRequired` key. -/
def decField {α : Type} (d : Json → Option α) (oj : Option Json) : Option α :=
  oj.bind d

/-- The field list of the JSON object `json.dumps(state)` writes: required
keys first, then each present optional key, in declaration order. -/
def stateFields (s : AgentStateDict) : List (String × Json) :=
  [("session_id", Json.str s.session_id),
   ("user_query", Json.str s.user_query),
   ("current_step", Json.str s.current_step)]
  ++ optField "processed_query" Json.str s.processed_query
  ++ optField "query_intent" Json.str s.query_intent
  ++ optField "query_category" Json.str s.query_category
  ++ optField "query_keywords" (encListOf Json.str) s.query_keywords
  ++ optField "query_entities" (encObjOf (encListOf Json.str)) s.query_entities
  ++ optField "query_confidence" Json.num s.query_confidence
  ++ optField "search_results" (encListOf (encObjOf id)) s.search_results
  ++ optField "total_results_count" Json.int s.total_results_count
  ++ optField "search_strategy" Json.str s.search_strategy
  ++ optField "simplified_content" Json.str s.simplified_content
  ++ optField "key_points" (encListOf Json.str) s.key_points
  ++ optField "step_by_step_guide" (encListOf Json.str) s.step_by_step_guide
  ++ optField "terminology_explanations" (encObjOf Json.str) s.terminology_explanations
  ++ optField "target_difficulty" Json.str s.target_difficulty
  ++ optField "readability_score" Json.num s.readability_score
  ++ optField "final_response" Json.str s.final_response
  ++ optField "follow_up_questions" (encListOf Json.str) s.follow_up_questions
  ++ optField "related_links" (encListOf (encObjOf Json.str)) s.related_links
  ++ optField "confidence_score" Json.num s.confidence_score
  ++ optField "chat_history" (encListOf (encObjOf id)) s.chat_history
  ++ optField "context" (encObjOf id) s.context
  ++ optField "metadata" (encObjOf id) s.metadata
  ++ optField "error_message" Json.str s.error_message
  ++ optField "processing_times" (encObjOf Json.num) s.processing_times
  ++ optField "created_at" Json.str s.created_at
  ++ optField "updated_at" Json.str s.updated_at
  ++ optField "retry_count" Json.int s.retry_count

/-- `StateManager.serialize_state(state)`: the JSON document
`json.dumps(state, ensure_ascii=False, default=str)` produces (no field
of the typed state needs the `default=str` fallback). -/
def serialize_state (s : AgentStateDict) : Json :=
  Json.obj (stateFields s)

/-- `StateManager.deserialize_state(state_json)`: `json.loads` back into
the state dictionary; fails on a document whose required keys are missing
or ill-typed. -/
def deserialize_state (j : Json) : Option AgentStateDict :=
  match j with
  | Json.obj fs =>
    match decField decStr (lookup fs "session_id"),
        decField decStr (lookup fs "user_query"),
        decField decStr (lookup fs "current_step") with
    | some sid, some uq, some cs =>
      some { session_id := sid
             user_query := uq
             current_step := cs
             processed_query := decField decStr (lookup fs "processed_query")
             query_intent := decField decStr (lookup fs "query_intent")
             query_category := decField decStr (lookup fs "query_category")
             query_keywords := decField (decListOf decStr) (lookup fs "query_keywords")
             query_entities :=
               decField (decObjOf (decListOf decStr)) (lookup fs "query_entities")
             query_confidence := decField decNum (lookup fs "query_confidence")
             search_results :=
               decField (decListOf (decObjOf some)) (lookup fs "search_results")
             total_results_count := decField decInt (lookup fs "total_results_count")
             search_strategy := decField decStr (lookup fs "search_strategy")
             simplified_content := decField decStr (lookup fs "simplified_content")
             key_points := decField (decListOf decStr) (lookup fs "key_points")
             step_by_step_guide :=
               decField (decListOf decStr) (lookup fs "step_by_step_guide")
             terminology_explanations :=
               decField (decObjOf decStr) (lookup fs "terminology_explanations")
             target_difficulty := decField decStr (lookup fs "target_difficulty")
             readability_score := decField decNum (lookup fs "readability_score")
             final_response := decField decStr (lookup fs "final_response")
             follow_up_questions :=
               decField (decListOf decStr) (lookup fs "follow_up_questions")
             related_links :=
               decField (decListOf (decObjOf decStr)) (lookup fs "related_links")
             confidence_score := decField decNum (lookup fs "confidence_score")
             chat_history :=
               decField (decListOf (decObjOf some)) (lookup fs "chat_history")
             context := decField (decObjOf some) (lookup fs "context")
             metadata := decField (decObjOf some) (lookup fs "metadata")
             error_message := decField decStr (lookup fs "error_message")
             processing_times := decField (decObjOf decNum) (lookup fs "processing_times")
             created_at := decField decStr (lookup fs "created_at")
             updated_at := decField decStr (lookup fs "updated_at")
             retry_count := decField decInt (lookup fs "retry_count") }
    | _, _, _ => none
  | _ => none

/-- A sequence of `StateManager.set_error` calls applied in order; each
list entry supplies the `error_message` and the clock reading of one
call. -/
def applyErrors : AgentStateDict → List (String × String) → AgentStateDict
  | s, [] => s
  | s, (msg, now) :: rest => applyErrors (set_error s msg now) rest

/-- Looking a key up past an optional field with a different key skips it,
whether or not the field is present. -/
theorem lookup_optField_ne {α : Type} (k k' : String) (enc : α → Json)
    (o : Option α) (rest : List (String × Json)) (h : ¬ (k' = k)) :
    lookup (optField k' enc o ++ rest) k = lookup rest k := by
  cases o <;> simp [optField, lookup, h]

/-- Looking a key up at its own optional field yields the encoded value
when present and falls through to `none` when absent, provided the key
does not recur later. -/
theorem lookup_optField_eq {α : Type} (k : String) (enc : α → Json)
    (o : Option α) (rest : List (String × Json)) (h : lookup rest k = none) :
    lookup (optField k enc o ++ rest) k = o.map enc := by
  cases o <;> simp [optField, lookup, h]

/-- Final-position variant of `lookup_optField_ne`. -/
theorem lookup_optField_last_ne {α : Type} (k k' : String) (enc : α → Json)
    (o : Option α) (h : ¬ (k' = k)) :
    lookup (optField k' enc o) k = none := by
  cases o <;> simp [optField, lookup, h]

/-- Final-position variant of `lookup_optField_eq`. -/
theorem lookup_optField_last_eq {α : Type} (k : String) (enc : α → Json)
    (o : Option α) :
    lookup (optField k enc o) k = o.map enc := by
  cases o <;> simp [optField, lookup]

/-- Elementwise decoding inverts elementwise encoding. -/
theorem mapMO_map {α : Type} (d : Json → Option α) (e : α → Json)
    (h : ∀ a, d (e a) = some a) :
    ∀ xs : List α, mapMO d (xs.map e) = some xs
  | [] => rfl
  | x :: xs => by simp [mapMO, h, mapMO_map d e h xs]

/-- Valuewise decoding inverts valuewise encoding. -/
theorem mapPairsO_map {α : Type} (d : Json → Option α) (e : α → Json)
    (h : ∀ a, d (e a) = some a) :
    ∀ ps : List (String × α), mapPairsO d (ps.map fun p => (p.1, e p.2)) = some ps
  | [] => rfl
  | (k, v) :: rest => by simp [mapPairsO, h, mapPairsO_map d e h rest]

/-- `decListOf` inverts `encListOf`. -/
theorem decListOf_enc {α : Type} (d : Json → Option α) (e : α → Json)
    (h : ∀ a, d (e a) = some a) (xs : List α) :
    decListOf d (encListOf e xs) = some xs := by
  simp [decListOf, encListOf, mapMO_map d e h]

/-- `decObjOf` inverts `encObjOf`. -/
theorem decObjOf_enc {α : Type} (d : Json → Option α) (e : α → Json)
    (h : ∀ a, d (e a) = some a) (ps : List (String × α)) :
    decObjOf d (encObjOf e ps) = some ps := by
  simp [decObjOf, encObjOf, mapPairsO_map d e h]

/-- Decoding a present required string field. -/
theorem decField_some_str (s : String) :
    decField decStr (some (Json.str s)) = some s := rfl

/-- String-field round trip. -/
theorem decField_map_str (o : Option String) :
    decField decStr (o.map Json.str) = o := by
  cases o <;> rfl

/-- Number-field round trip. -/
theorem decField_map_num (o : Option ℚ) :
    decField decNum (o.map Json.num) = o := by
  cases o <;> rfl

/-- Integer-field round trip. -/
theorem decField_map_int (o : Option Int) :
    decField decInt (o.map Json.int) = o := by
  cases o <;> rfl

/-- String-list-field round trip. -/
theorem decField_map_listStr (o : Option (List String)) :
    decField (decListOf decStr) (o.map (encListOf Json.str)) = o := by
  cases o <;> simp [decField, decListOf_enc decStr Json.str (fun _ => rfl)]

/-- Dict-of-string-list-field round trip (`query_entities`). -/
theorem decField_map_objListStr (o : Option (List (String × List String))) :
    decField (decObjOf (decListOf decStr))
      (o.map (encObjOf (encListOf Json.str))) = o := by
  cases o <;>
    simp [decField,
      decObjOf_enc (decListOf decStr) (encListOf Json.str)
        (decListOf_enc decStr Json.str (fun _ => rfl))]

/-- List-of-dict-of-`Any`-field round trip (`search_results`,
`chat_history`). -/
theorem decField_map_listObj (o : Option (List (List (String × Json)))) :
    decField (decListOf (decObjOf some))
      (o.map (encListOf (encObjOf id))) = o := by
  cases o <;>
    simp [decField,
      decListOf_enc (decObjOf some) (encObjOf id)
        (decObjOf_enc some id (fun _ => rfl))]

/-- Dict-of-string-field round trip (`terminology_explanations`). -/
theorem decField_map_objStr (o : Option (List (String × String))) :
    decField (decObjOf decStr) (o.map (encObjOf Json.str)) = o := by
  cases o <;> simp [decField, decObjOf_enc decStr Json.str (fun _ => rfl)]

/-- List-of-dict-of-string-field round trip (`related_links`). -/
theorem decField_map_listObjStr (o : Option (List (List (String × String)))) :
    decField (decListOf (decObjOf decStr))
      (o.map (encListOf (encObjOf Json.str))) = o := by
  cases o <;>
    simp [decField,
      decListOf_enc (decObjOf decStr) (encObjOf Json.str)
        (decObjOf_enc decStr Json.str (fun _ => rfl))]

/-- Dict-of-`Any`-field round trip (`context`, `metadata`). -/
theorem decField_map_obj (o : Option (List (String × Json))) :
    decField (decObjOf some) (o.map (encObjOf id)) = o := by
  cases o <;> simp [decField, decObjOf_enc some id (fun _ => rfl)]

/-- Dict-of-number-field round trip (`processing_times`). -/
theorem decField_map_objNum (o : Option (List (String × ℚ))) :
    decField (decObjOf decNum) (o.map (encObjOf Json.num)) = o := by
  cases o <;> simp [decField, decObjOf_enc decNum Json.num (fun _ => rfl)]

/-- Claim C8: serialization round-trip. For every `AgentStateDict` state —
whatever unicode text, empty collections or nested result lists it holds,
and whichever optional keys are absent — `deserialize_state` applied to
`serialize_state` of the state returns exactly that state. -/
theorem serialize_deserialize_roundtrip (s : AgentStateDict) :
    deserialize_state (serialize_state s) = some s := by
  simp [serialize_state, deserialize_state, stateFields, List.append_assoc, lookup,
        lookup_optField_ne, lookup_optField_eq, lookup_optField_last_ne,
        lookup_optField_last_eq, decField_some_str, decField_map_str,
        decField_map_num, decField_map_int, decField_map_listStr,
        decField_map_objListStr, decField_map_listObj, decField_map_objStr,
        decField_map_listObjStr, decField_map_obj, decField_map_objNum]

/-- `String.append` concatenates the underlying code-point lists. -/
theorem string_append_data (a b : String) : (a ++ b).data = a.data ++ b.data := by
  cases a; cases b; rfl

/-- A four-part concatenation whose head is nonempty is nonempty. -/
theorem append4_ne_empty (a b c d : String) (ha : ¬ (a.data = [])) :
    ¬ (a ++ b ++ c ++ d = "") := by
  intro h
  apply ha
  have hd : a.data ++ b.data ++ c.data ++ d.data = [] := by
    have h1 := congrArg String.data h
    rw [string_append_data, string_append_data, string_append_data] at h1
    exact h1
  exact (List.append_eq_nil.mp
    ((List.append_eq_nil.mp ((List.append_eq_nil.mp hd).1)).1)).1

/-- `dropWhile` never lengthens a list. -/
theorem length_dropWhile_le' {α : Type} (p : α → Bool) (l : List α) :
    (l.dropWhile p).length ≤ l.length := by
  induction l with
  | nil => simp [List.dropWhile]
  | cons a as ih =>
    rw [List.dropWhile]
    split
    · exact le_trans ih (by simp)
    · simp

/-- Stripping never lengthens a string. -/
theorem pyStrip_length_le (s : String) : (pyStrip s).length ≤ s.length := by
  show ((s.data.dropWhile pyIsSpace).reverse.dropWhile
      pyIsSpace).reverse.length ≤ s.data.length
  rw [List.length_reverse]
  calc ((s.data.dropWhile pyIsSpace).reverse.dropWhile
          pyIsSpace).length
      ≤ (s.data.dropWhile pyIsSpace).reverse.length :=
        length_dropWhile_le' _ _
    _ = (s.data.dropWhile pyIsSpace).length := List.length_reverse _
    _ ≤ s.data.length := length_dropWhile_le' _ _

/-- A string of Python whitespace strips to the empty string. -/
theorem pyStrip_all_whitespace (c : String)
    (h : ∀ ch ∈ c.data, pyIsSpace ch) : pyStrip c = "" := by
  unfold pyStrip
  have h1 : c.data.dropWhile pyIsSpace = [] :=
    List.dropWhile_eq_nil_iff.mpr h
  rw [h1]
  rfl

/-- Claim C1: a pipeline state can only be completed with a final response.
Whenever `final_response` is absent, `None` or empty,
`validate_state_transition(state, "completed")` returns `False` with a
non-empty reason; and `route_after_response` decides `next_step =
"completed"` only when `final_response` is a present string whose stripped
length is at least 10. -/
theorem completed_requires_final_response (state : AgentStateDict) :
    (pyStrIsFalsy state.final_response = true →
      (validate_state_transition state "completed").1 = false ∧
      ¬ ((validate_state_transition state "completed").2 = "")) ∧
    ((route_after_response state).next_step = "completed" →
      ∃ r, state.final_response = some r ∧ 10 ≤ (pyStrip r).length) := by
  constructor
  · intro hfalsy
    unfold validate_state_transition
    split_ifs with h1 h2 h3 h4
    · exact ⟨rfl, by decide⟩
    · exact ⟨rfl, by decide⟩
    · exact absurd ⟨rfl, hfalsy⟩ h3
    · exact absurd ⟨rfl, hfalsy⟩ h3
    · exact ⟨rfl, append4_ne_empty _ _ _ _ (by decide)⟩
  · intro hnext
    simp only [route_after_response] at hnext
    split_ifs at hnext with h1 h2 h3 <;>
      simp only [WorkflowNodes.ERROR, WorkflowNodes.COMPLETED] at hnext
    · exact absurd hnext (by decide)
    · exact absurd hnext (by decide)
    · rcases hfr : state.final_response with _ | r
      · rw [hfr] at h2
        exact absurd (Or.inl rfl) h2
      · refine ⟨r, rfl, ?_⟩
        rw [hfr] at h2
        push_neg at h2
        simpa using h2.2
    · rcases hfr : state.final_response with _ | r
      · rw [hfr] at h2
        exact absurd (Or.inl rfl) h2
      · refine ⟨r, rfl, ?_⟩
        rw [hfr] at h2
        push_neg at h2
        simpa using h2.2

/-- Witness for claim C1 at a concrete state with no final response. -/
theorem completed_requires_final_response_witness :
    (validate_state_transition
      { session_id := "s", user_query := "q",
        current_step := "response_generation" } "completed").1 = false ∧
    ¬ ((validate_state_transition
      { session_id := "s", user_query := "q",
        current_step := "response_generation" } "completed").2 = "") :=
  (completed_requires_final_response
    { session_id := "s", user_query := "q",
      current_step := "response_generation" }).1 rfl

/-- Claim C2 counterexample: "proceeds to response_generation at length 10"
fails as stated, because the gate measures the whitespace-stripped length.
A non-error state whose simplified content is the 10-character string
"abcdefghi " (trailing space, stripped length 9) routes to error. -/
theorem routing_threshold_boundaries_counterexample :
    ¬ (({ session_id := "s", user_query := "q",
          current_step := "content_processing",
          simplified_content := some "abcdefghi " } :
            AgentStateDict).current_step = "error") ∧
    ("abcdefghi " : String).length = 10 ∧
    (route_after_processing
      { session_id := "s", user_query := "q",
        current_step := "content_processing",
        simplified_content := some "abcdefghi " }).next_step = "error" := by
  refine ⟨by decide, by decide, by decide⟩

/-- Claim C2 (amended): routing threshold boundaries for every non-error
state. Analysis confidence exactly 0.3 routes to document_retrieval
(inclusive boundary) and below 0.3 to error; a result count of 0 routes to
error, 1 proceeds to content_processing with lowered confidence 0.6 and a
`limited_results` warning in metadata, 2 or more proceeds with confidence
0.9 and no warning; simplified content of length 9 routes to error, and
content of length 10 proceeds to response_generation provided it carries
no leading or trailing whitespace (the gate measures the
whitespace-stripped length, so a 10-character value that strips below 10
still routes to error). -/
theorem routing_threshold_boundaries (state : AgentStateDict)
    (h : ¬ (state.current_step = "error")) :
    (3/10 ≤ state.query_confidence.getD 0 →
        (route_after_analysis state).next_step = "document_retrieval") ∧
    (state.query_confidence.getD 0 < 3/10 →
        (route_after_analysis state).next_step = "error") ∧
    (state.total_results_count.getD 0 = 0 →
        (route_after_retrieval state).next_step = "error") ∧
    (state.total_results_count.getD 0 = 1 →
        (route_after_retrieval state).next_step = "content_processing" ∧
        (route_after_retrieval state).confidence = 6/10 ∧
        lookup ((route_after_retrieval state).metadata.getD []) "warning" =
          some (Json.str "limited_results")) ∧
    (2 ≤ state.total_results_count.getD 0 →
        (route_after_retrieval state).next_step = "content_processing" ∧
        (route_after_retrieval state).confidence = 9/10 ∧
        lookup ((route_after_retrieval state).metadata.getD []) "warning" =
          none) ∧
    (∀ c, state.simplified_content = some c → c.length = 9 →
        (route_after_processing state).next_step = "error") ∧
    (∀ c, state.simplified_content = some c → c.length = 10 → pyStrip c = c →
        (route_after_processing state).next_step = "response_generation") := by
  refine ⟨?_, ?_, ?_, ?_, ?_, ?_, ?_⟩
  · intro hc
    simp [route_after_analysis, h, not_lt.mpr hc,
          WorkflowNodes.DOCUMENT_RETRIEVAL]
  · intro hc
    simp [route_after_analysis, h, hc, WorkflowNodes.ERROR]
  · intro h0
    simp [route_after_retrieval, h, h0, WorkflowNodes.ERROR]
  · intro h1
    simp [route_after_retrieval, h, h1, WorkflowNodes.CONTENT_PROCESSING,
          lookup]
  · intro h2
    have hne : ¬ (state.total_results_count.getD 0 = 0) := by omega
    have hnl : ¬ (state.total_results_count.getD 0 < 2) := not_lt.mpr h2
    simp [route_after_retrieval, h, hne, hnl,
          WorkflowNodes.CONTENT_PROCESSING, lookup]
  · intro c hc hlen
    have hle := pyStrip_length_le c
    simp [route_after_processing, h, hc, WorkflowNodes.ERROR,
          show (pyStrip c).length < 10 by omega]
  · intro c hc hlen hstrip
    simp only [route_after_processing, hc]
    rw [if_neg h, if_neg (by simp [pyStrIsFalsy, hlen, hstrip])]
    split <;> simp [WorkflowNodes.RESPONSE_GENERATION]

/-- Witness for claim C2 at the concrete boundary inputs 0.3 / 0.29,
result counts 0, 1, 2 and contents of length 9 and 10. -/
theorem routing_threshold_boundaries_witness :
    (route_after_analysis
      { session_id := "s", user_query := "q",
        current_step := "query_analysis",
        query_confidence := some (3/10) }).next_step = "document_retrieval" ∧
    (route_after_analysis
      { session_id := "s", user_query := "q",
        current_step := "query_analysis",
        query_confidence := some (29/100) }).next_step = "error" ∧
    (route_after_retrieval
      { session_id := "s", user_query := "q",
        current_step := "document_retrieval",
        total_results_count := some 0 }).next_step = "error" ∧
    ((route_after_retrieval
      { session_id := "s", user_query := "q",
        current_step := "document_retrieval",
        total_results_count := some 1 }).next_step = "content_processing" ∧
     (route_after_retrieval
      { session_id := "s", user_query := "q",
        current_step := "document_retrieval",
        total_results_count := some 1 }).confidence = 6/10 ∧
     lookup ((route_after_retrieval
      { session_id := "s", user_query := "q",
        current_step := "document_retrieval",
        total_results_count := some 1 }).metadata.getD []) "warning" =
       some (Json.str "limited_results")) ∧
    (route_after_retrieval
      { session_id := "s", user_query := "q",
        current_step := "document_retrieval",
        total_results_count := some 2 }).next_step = "content_processing" ∧
    (route_after_processing
      { session_id := "s", user_query := "q",
        current_step := "content_processing",
        simplified_content := some "abcdefghi" }).next_step = "error" ∧
    (route_after_processing
      { session_id := "s", user_query := "q",
        current_step := "content_processing",
        simplified_content := some "abcdefghij",
        readability_score := some 1 }).next_step = "response_generation" := by
  refine ⟨?_, ?_, ?_, ?_, ?_, ?_, ?_⟩
  · exact (routing_threshold_boundaries _ (by decide)).1 (by norm_num)
  · exact (routing_threshold_boundaries _ (by decide)).2.1 (by norm_num)
  · exact (routing_threshold_boundaries _ (by decide)).2.2.1 (by norm_num)
  · exact (routing_threshold_boundaries _ (by decide)).2.2.2.1 (by norm_num)
  · exact ((routing_threshold_boundaries _ (by decide)).2.2.2.2.1
      (by norm_num)).1
  · exact (routing_threshold_boundaries _ (by decide)).2.2.2.2.2.1
      "abcdefghi" rfl (by decide)
  · exact (routing_threshold_boundaries _ (by decide)).2.2.2.2.2.2
      "abcdefghij" rfl (by decide) (by decide)

/-- Claim C3: at the response-generation boundary of a non-error state, a
final response of stripped length at least 10 always routes to
`completed`, whatever the confidence score; below confidence 0.5 the
decision still completes and carries a `low_confidence` warning in
metadata; and the boundary routes to error only because of response
length, never because of response confidence. -/
theorem response_confidence_never_errors (state : AgentStateDict)
    (h : ¬ (state.current_step = "error")) :
    (∀ r, state.final_response = some r → 10 ≤ (pyStrip r).length →
        (route_after_response state).next_step = "completed" ∧
        (state.confidence_score.getD 0 < 1/2 →
          lookup ((route_after_response state).metadata.getD []) "warning" =
            some (Json.str "low_confidence"))) ∧
    ((route_after_response state).next_step = "error" →
      pyStrIsFalsy state.final_response = true ∨
      (pyStrip (state.final_response.getD "")).length < 10) := by
  constructor
  · intro r hr hlen
    have hle := pyStrip_length_le r
    have hcond : ¬ (pyStrIsFalsy (some r) = true ∨
        (pyStrip ((some r : Option String).getD "")).length < 10) := by
      simp only [Option.getD_some, pyStrIsFalsy]
      intro hor
      rcases hor with h1 | h2
      · simp only [beq_iff_eq] at h1
        omega
      · omega
    simp only [route_after_response, hr]
    rw [if_neg h, if_neg hcond]
    constructor
    · split <;> simp [WorkflowNodes.COMPLETED]
    · intro hconf
      rw [if_pos hconf]
      simp [lookup]
  · intro hnext
    simp only [route_after_response] at hnext
    split_ifs at hnext with h1 h2
    · exact h1
    · simp [WorkflowNodes.COMPLETED] at hnext
    · simp [WorkflowNodes.COMPLETED] at hnext

/-- Witness for claim C3 at a concrete state whose response is long enough
but whose confidence 0.49 is below the 0.5 threshold. -/
theorem response_confidence_never_errors_witness :
    (route_after_response
      { session_id := "s", user_query := "q",
        current_step := "response_generation",
        final_response := some "valid answer!",
        confidence_score := some (49/100) }).next_step = "completed" ∧
    lookup ((route_after_response
      { session_id := "s", user_query := "q",
        current_step := "response_generation",
        final_response := some "valid answer!",
        confidence_score := some (49/100) }).metadata.getD []) "warning" =
      some (Json.str "low_confidence") := by
  have h := (response_confidence_never_errors
    { session_id := "s", user_query := "q",
      current_step := "response_generation",
      final_response := some "valid answer!",
      confidence_score := some (49/100) } (by decide)).1
    "valid answer!" rfl (by decide)
  exact ⟨h.1, h.2 (by norm_num)⟩

/-- Claim C4: retry routing from the error stage. When `can_retry` is
false — exactly when `retry_count` has reached the default maximum of 3 —
`route_from_error` stays at error with a retries-exceeded reason;
otherwise the resume stage is chosen by case-insensitive substring match
on `error_message`: "analysis" resumes query_analysis, else "retrieval"
resumes document_retrieval, else "processing" resumes content_processing,
and with no match the pipeline restarts from query_analysis. -/
theorem error_retry_routing (state : AgentStateDict)
    (_hstage : state.current_step = "error") :
    (can_retry state = false ↔ 3 ≤ state.retry_count.getD 0) ∧
    (can_retry state = false →
        (route_from_error state).next_step = "error" ∧
        (route_from_error state).reason = "Maximum retries exceeded") ∧
    (can_retry state = true →
      (pyContains "analysis" (pyLower (state.error_message.getD "")) = true →
          (route_from_error state).next_step = "query_analysis") ∧
      (pyContains "analysis" (pyLower (state.error_message.getD "")) = false →
       pyContains "retrieval" (pyLower (state.error_message.getD "")) = true →
          (route_from_error state).next_step = "document_retrieval") ∧
      (pyContains "analysis" (pyLower (state.error_message.getD "")) = false →
       pyContains "retrieval" (pyLower (state.error_message.getD "")) = false →
       pyContains "processing" (pyLower (state.error_message.getD "")) = true →
          (route_from_error state).next_step = "content_processing") ∧
      (pyContains "analysis" (pyLower (state.error_message.getD "")) = false →
       pyContains "retrieval" (pyLower (state.error_message.getD "")) = false →
       pyContains "processing" (pyLower (state.error_message.getD "")) = false →
          (route_from_error state).next_step = "query_analysis")) := by
  refine ⟨?_, ?_, ?_⟩
  · simp [can_retry, not_lt]
  · intro hf
    simp only [route_from_error]
    rw [if_pos (by simp [hf])]
    exact ⟨rfl, rfl⟩
  · intro ht
    have hcr : ¬ ¬ (can_retry state = true) := by simp [ht]
    refine ⟨?_, ?_, ?_, ?_⟩
    · intro ha
      simp only [route_from_error]
      rw [if_neg hcr, if_pos ha]
      rfl
    · intro ha hr
      simp only [route_from_error]
      rw [if_neg hcr, if_neg (by simp [ha]), if_pos hr]
      rfl
    · intro ha hr hp
      simp only [route_from_error]
      rw [if_neg hcr, if_neg (by simp [ha]), if_neg (by simp [hr]),
          if_pos hp]
      rfl
    · intro ha hr hp
      simp only [route_from_error]
      rw [if_neg hcr, if_neg (by simp [ha]), if_neg (by simp [hr]),
          if_neg (by simp [hp])]
      rfl

/-- Witness for claim C4 at concrete error states: retries exhausted, and
error messages matching "analysis" (case-insensitively), "retrieval",
"processing", and nothing. -/
theorem error_retry_routing_witness :
    (route_from_error
      { session_id := "s", user_query := "q", current_step := "error",
        error_message := some "x", retry_count := some 3 }).next_step =
      "error" ∧
    (route_from_error
      { session_id := "s", user_query := "q", current_step := "error",
        error_message := some "Analysis failed",
        retry_count := some 1 }).next_step = "query_analysis" ∧
    (route_from_error
      { session_id := "s", user_query := "q", current_step := "error",
        error_message := some "document Retrieval timeout",
        retry_count := some 1 }).next_step = "document_retrieval" ∧
    (route_from_error
      { session_id := "s", user_query := "q", current_step := "error",
        error_message := some "content processing crashed",
        retry_count := some 1 }).next_step = "content_processing" ∧
    (route_from_error
      { session_id := "s", user_query := "q", current_step := "error",
        error_message := some "mystery",
        retry_count := some 1 }).next_step = "query_analysis" := by
  refine ⟨?_, ?_, ?_, ?_, ?_⟩
  · exact ((error_retry_routing _ rfl).2.1 (by decide)).1
  · exact ((error_retry_routing _ rfl).2.2 (by decide)).1 (by decide)
  · exact ((error_retry_routing _ rfl).2.2 (by decide)).2.1
      (by decide) (by decide)
  · exact ((error_retry_routing _ rfl).2.2 (by decide)).2.2.1
      (by decide) (by decide) (by decide)
  · exact ((error_retry_routing _ rfl).2.2 (by decide)).2.2.2
      (by decide) (by decide) (by decide)

/-- Each `set_error` call advances the `some`-valued retry counter by the
number of calls performed. -/
theorem applyErrors_retry_count (calls : List (String × String)) :
    ∀ (s : AgentStateDict) (r : Int), s.retry_count = some r →
      (applyErrors s calls).retry_count = some (r + calls.length) := by
  induction calls with
  | nil =>
    intro s r h
    simpa using h
  | cons c rest ih =>
    intro s r h
    have hstep : (set_error s c.1 c.2).retry_count = some (r + 1) := by
      simp [set_error, h]
    have := ih (set_error s c.1 c.2) (r + 1) hstep
    rcases c with ⟨msg, now⟩
    simp only [applyErrors, List.length_cons]
    rw [this]
    congr 1
    omega

/-- Claim C5: monotonic retry count. `set_error` increments `retry_count`
by exactly one; starting from an initial state, any sequence of N
`set_error` calls leaves `retry_count = N`; and `can_retry` holds exactly
when `retry_count` is below the maximum. -/
theorem retry_count_monotonic :
    (∀ (state : AgentStateDict) (msg now : String),
        (set_error state msg now).retry_count =
          some (state.retry_count.getD 0 + 1)) ∧
    (∀ (sid q t : String) (calls : List (String × String)),
        (applyErrors (create_initial_state sid q t) calls).retry_count =
          some (calls.length : Int)) ∧
    (∀ (state : AgentStateDict) (m : Int),
        can_retry state m = true ↔ state.retry_count.getD 0 < m) := by
  refine ⟨?_, ?_, ?_⟩
  · intro state msg now
    rfl
  · intro sid q t calls
    have h := applyErrors_retry_count calls (create_initial_state sid q t) 0 rfl
    simpa using h
  · intro state m
    simp [can_retry]

/-- Witness for claim C5: two consecutive error entries on a fresh state
leave `retry_count = 2`, and `can_retry` at the default maximum 3 is then
still true while at maximum 2 it is false. -/
theorem retry_count_monotonic_witness :
    (applyErrors (create_initial_state "s" "q" "t")
        [("first failure", "t1"), ("second failure", "t2")]).retry_count =
      some 2 ∧
    can_retry (applyErrors (create_initial_state "s" "q" "t")
        [("first failure", "t1"), ("second failure", "t2")]) 3 = true := by
  constructor
  · exact retry_count_monotonic.2.1 "s" "q" "t"
      [("first failure", "t1"), ("second failure", "t2")]
  · have h2 := retry_count_monotonic.2.1 "s" "q" "t"
      [("first failure", "t1"), ("second failure", "t2")]
    have h3 := (retry_count_monotonic.2.2 (applyErrors
      (create_initial_state "s" "q" "t")
      [("first failure", "t1"), ("second failure", "t2")]) 3).mpr
    apply h3
    rw [h2]
    norm_num

/-- Claim C6 counterexample: `create_initial_state` performs no input
validation — called with an empty session id and an empty query it does
not fail but returns an ordinary initial state carrying the empty
strings. -/
theorem create_initial_state_empty_counterexample :
    (create_initial_state "" "" "2024-01-01T00:00:00").session_id = "" ∧
    (create_initial_state "" "" "2024-01-01T00:00:00").user_query = "" ∧
    (create_initial_state "" "" "2024-01-01T00:00:00").current_step =
      "query_analysis" ∧
    (create_initial_state "" "" "2024-01-01T00:00:00").retry_count = some 0 :=
  ⟨rfl, rfl, rfl, rfl⟩

/-- Claim C6 (amended): `create_initial_state` accepts every session id
and query, including empty ones, without failing; the returned state has
`current_step = "query_analysis"`, `retry_count = 0`, empty collections,
and `created_at` and `updated_at` both set to the creation time. -/
theorem create_initial_state_fields (sid q t : String) :
    (create_initial_state sid q t).session_id = sid ∧
    (create_initial_state sid q t).user_query = q ∧
    (create_initial_state sid q t).current_step = "query_analysis" ∧
    (create_initial_state sid q t).retry_count = some 0 ∧
    (create_initial_state sid q t).query_keywords = some [] ∧
    (create_initial_state sid q t).query_entities = some [] ∧
    (create_initial_state sid q t).search_results = some [] ∧
    (create_initial_state sid q t).key_points = some [] ∧
    (create_initial_state sid q t).step_by_step_guide = some [] ∧
    (create_initial_state sid q t).terminology_explanations = some [] ∧
    (create_initial_state sid q t).follow_up_questions = some [] ∧
    (create_initial_state sid q t).related_links = some [] ∧
    (create_initial_state sid q t).chat_history = some [] ∧
    (create_initial_state sid q t).context = some [] ∧
    (create_initial_state sid q t).metadata = some [] ∧
    (create_initial_state sid q t).processing_times = some [] ∧
    (create_initial_state sid q t).created_at = some t ∧
    (create_initial_state sid q t).updated_at = some t :=
  ⟨rfl, rfl, rfl, rfl, rfl, rfl, rfl, rfl, rfl, rfl, rfl, rfl, rfl, rfl,
   rfl, rfl, rfl, rfl⟩

/-- Claim C7 counterexample: `set_error` performs no validation of the
message — called with the empty string it does not fail but produces a
state in the error stage whose `error_message` is the empty string. -/
theorem set_error_empty_message_counterexample :
    (set_error
      { session_id := "s", user_query := "q",
        current_step := "query_analysis", retry_count := some 0 }
      "" "t").current_step = "error" ∧
    (set_error
      { session_id := "s", user_query := "q",
        current_step := "query_analysis", retry_count := some 0 }
      "" "t").error_message = some "" :=
  ⟨rfl, rfl⟩

/-- Claim C7 (amended): `set_error` accepts every message, including the
empty string, without failing; it always moves the state to the error
stage, stores the given message verbatim, and increments `retry_count` —
so an error-stage state may carry an empty `error_message`. -/
theorem set_error_fields (state : AgentStateDict) (msg now : String) :
    (set_error state msg now).current_step = "error" ∧
    (set_error state msg now).error_message = some msg ∧
    (set_error state msg now).retry_count =
      some (state.retry_count.getD 0 + 1) :=
  ⟨rfl, rfl, rfl⟩

/-- Claim C9 counterexample: in the state returned by
`create_initial_state`, the payload fields of stages that have not run
are not all absent — the analysis confidence, search results, result
count, readability score and response confidence are explicitly defaulted
to `0.0` / `[]` / `0`. -/
theorem initial_state_defaults_counterexample :
    (create_initial_state "s" "q" "t").query_confidence = some 0 ∧
    (create_initial_state "s" "q" "t").search_results = some [] ∧
    (create_initial_state "s" "q" "t").total_results_count = some 0 ∧
    (create_initial_state "s" "q" "t").readability_score = some 0 ∧
    (create_initial_state "s" "q" "t").confidence_score = some 0 :=
  ⟨rfl, rfl, rfl, rfl, rfl⟩

/-- Claim C9 (amended): in the initial state only the textual payload
fields (`processed_query`, `query_intent`, `query_category`,
`search_strategy`, `simplified_content`, `target_difficulty`,
`final_response`, `error_message`) are absent; the numeric quality
signals are defaulted to `0.0` (`query_confidence`, `readability_score`,
`confidence_score`), `search_results` to the empty list and
`total_results_count` to `0`. -/
theorem initial_state_payload_fields (sid q t : String) :
    (create_initial_state sid q t).processed_query = none ∧
    (create_initial_state sid q t).query_intent = none ∧
    (create_initial_state sid q t).query_category = none ∧
    (create_initial_state sid q t).search_strategy = none ∧
    (create_initial_state sid q t).simplified_content = none ∧
    (create_initial_state sid q t).target_difficulty = none ∧
    (create_initial_state sid q t).final_response = none ∧
    (create_initial_state sid q t).error_message = none ∧
    (create_initial_state sid q t).query_confidence = some 0 ∧
    (create_initial_state sid q t).search_results = some [] ∧
    (create_initial_state sid q t).total_results_count = some 0 ∧
    (create_initial_state sid q t).readability_score = some 0 ∧
    (create_initial_state sid q t).confidence_score = some 0 :=
  ⟨rfl, rfl, rfl, rfl, rfl, rfl, rfl, rfl, rfl, rfl, rfl, rfl, rfl⟩

/-- Claim C10: the minimum-length quality gates measure the
whitespace-stripped string. For every non-error state, a
`simplified_content` or `final_response` that is missing or consists only
of whitespace — even at raw length 10 or more — routes
`route_after_processing` / `route_after_response` to error, while the
`content_length` / `response_length` reported in the decision's metadata
is the unstripped length (0 when the field is absent). -/
theorem length_gates_measure_stripped (state : AgentStateDict)
    (h : ¬ (state.current_step = "error")) :
    ((state.simplified_content = none ∨
      (∃ c, state.simplified_content = some c ∧
        ∀ ch ∈ c.data, pyIsSpace ch)) →
        (route_after_processing state).next_step = "error" ∧
        (route_after_processing state).metadata =
          some [("content_length",
            Json.int ((state.simplified_content.getD "").length : Int))]) ∧
    ((state.final_response = none ∨
      (∃ r, state.final_response = some r ∧
        ∀ ch ∈ r.data, pyIsSpace ch)) →
        (route_after_response state).next_step = "error" ∧
        (route_after_response state).metadata =
          some [("response_length",
            Json.int ((state.final_response.getD "").length : Int))]) := by
  constructor
  · intro hc
    rcases hc with hnone | ⟨c, hc, hw⟩
    · simp only [route_after_processing, hnone, Option.getD_none]
      rw [if_neg h, if_pos (show pyStrIsFalsy none = true ∨
        (pyStrip "").length < 10 from Or.inl rfl)]
      exact ⟨rfl, rfl⟩
    · have hstrip : pyStrip c = "" := pyStrip_all_whitespace c hw
      simp only [route_after_processing, hc, Option.getD_some]
      rw [if_neg h, if_pos (show pyStrIsFalsy (some c) = true ∨
        (pyStrip c).length < 10 from Or.inr (by rw [hstrip]; decide))]
      exact ⟨rfl, rfl⟩
  · intro hr
    rcases hr with hnone | ⟨r, hr, hw⟩
    · simp only [route_after_response, hnone, Option.getD_none]
      rw [if_neg h, if_pos (show pyStrIsFalsy none = true ∨
        (pyStrip "").length < 10 from Or.inl rfl)]
      exact ⟨rfl, rfl⟩
    · have hstrip : pyStrip r = "" := pyStrip_all_whitespace r hw
      simp only [route_after_response, hr, Option.getD_some]
      rw [if_neg h, if_pos (show pyStrIsFalsy (some r) = true ∨
        (pyStrip r).length < 10 from Or.inr (by rw [hstrip]; decide))]
      exact ⟨rfl, rfl⟩

/-- Witness for claim C10 at concrete states: a content of ten spaces (raw
length 10) routes to error with reported length 10, and an absent final
response routes to error with reported length 0. -/
theorem length_gates_measure_stripped_witness :
    (route_after_processing
      { session_id := "s", user_query := "q",
        current_step := "content_processing",
        simplified_content := some "          " }).next_step = "error" ∧
    (route_after_processing
      { session_id := "s", user_query := "q",
        current_step := "content_processing",
        simplified_content := some "          " }).metadata =
      some [("content_length", Json.int 10)] ∧
    (route_after_response
      { session_id := "s", user_query := "q",
        current_step := "response_generation" }).next_step = "error" ∧
    (route_after_response
      { session_id := "s", user_query := "q",
        current_step := "response_generation" }).metadata =
      some [("response_length", Json.int 0)] := by
  have h1 := (length_gates_measure_stripped
    { session_id := "s", user_query := "q",
      current_step := "content_processing",
      simplified_content := some "          " } (by decide)).1
    (Or.inr ⟨"          ", rfl, by decide⟩)
  have h2 := (length_gates_measure_stripped
    { session_id := "s", user_query := "q",
      current_step := "response_generation" } (by decide)).2
    (Or.inl rfl)
  refine ⟨h1.1, ?_, h2.1, ?_⟩
  · rw [h1.2]
    rfl
  · rw [h2.2]
    rfl
